import Mathlib

/-!
Verification of the single-instance subprocess supervisor in
`src/tauri/src-tauri/src/main.rs` (MiraiPitch/Aya).

The Rust code is embedded shallowly: the mutable `PythonBridgeState` becomes a
Lean structure, the `start`/`stop` operations become pure functions from the
current state plus the outcomes of the external OS calls (spawn, try_wait,
kill) to the new state, the returned `Result<String, String>`, and the list of
events emitted to the frontend.  The command resolver, which in Rust is a pure
function of the build mode, the target platform and the app data directory,
becomes a Lean function of those three inputs.
-/

/-- The platform families distinguished by the `cfg(target_os = ...)`
attributes in `get_python_command`. -/
inductive Platform where
  | windows
  | macos
  | linux
  | other
deriving DecidableEq, Repr

/-- An OS process handle (`std::process::Child`), identified by its pid. -/
structure Child where
  id : Nat
deriving DecidableEq, Repr

/-- Outcome of `command.spawn()`. -/
inductive SpawnResult where
  | ok (child : Child)
  | err (e : String)
deriving DecidableEq, Repr

/-- Outcome of `process.try_wait()` after the 500 ms grace sleep:
`Ok(Some(status))`, `Ok(None)`, or `Err(e)`.  Exit statuses are abstracted
to integers. -/
inductive TryWaitResult where
  | exited (status : Int)
  | stillRunning
  | err (e : String)
deriving DecidableEq, Repr

/-- Outcome of `process.kill()`. -/
inductive KillResult where
  | ok
  | err (e : String)
deriving DecidableEq, Repr

/-- An event emitted to the frontend: `window.emit("python-bridge-status", b)`. -/
inductive Event where
  | bridgeStatus (b : Bool)
deriving DecidableEq, Repr

/-- The shared mutable state guarded by the `Mutex` in `main.rs`:
`process: Option<Child>` and `is_running: bool`. -/
structure PythonBridgeState where
  process : Option Child
  is_running : Bool
deriving DecidableEq, Repr

/-- `PythonBridgeState::new()`: no process, not running. -/
def PythonBridgeState.new : PythonBridgeState :=
  { process := none, is_running := false }

/-- `PathBuf::join` rendered on strings, with the platform's separator. -/
def pathJoin (sep : String) (dir comp : String) : String :=
  dir ++ sep ++ comp

/-- The path separator used when `to_string_lossy` renders the joined path. -/
def Platform.sep : Platform → String
  | Platform.windows => "\\"
  | _ => "/"

/-- `get_python_command` from `main.rs`.  `debugMode` is `cfg!(debug_assertions)`,
`platform` the compile-time `target_os`, `appDataDir` the result of
`path_resolver().app_data_dir()` (looked up only in production mode, before the
platform split).  Returns the program and optional argument list, or the error
string. -/
def get_python_command (debugMode : Bool) (platform : Platform)
    (appDataDir : Option String) : Except String (String × Option (List String)) :=
  if debugMode then
    match platform with
    | Platform.windows =>
        Except.ok ("python", some ["-m", "aya.tauri_bridge"])
    | _ =>
        Except.ok ("python3", some ["-m", "aya.tauri_bridge"])
  else
    match appDataDir with
    | none => Except.error "Failed to get app directory"
    | some appDir =>
      match platform with
      | Platform.windows =>
          Except.ok (pathJoin "\\" (pathJoin "\\" appDir "resources") "aya_bridge.exe", none)
      | Platform.macos =>
          Except.ok (pathJoin "/" (pathJoin "/" appDir "Resources") "aya_bridge", none)
      | Platform.linux =>
          Except.ok (pathJoin "/" (pathJoin "/" appDir "resources") "aya_bridge", none)
      | Platform.other =>
          Except.error "Unsupported platform"

/-- The external inputs consumed by one call to `start_python_bridge_direct`:
the resolver's inputs and the outcomes of the spawn and of the grace-probe
`try_wait`. -/
structure StartEnv where
  debugMode : Bool
  platform : Platform
  appDataDir : Option String
  spawnResult : SpawnResult
  tryWaitResult : TryWaitResult
deriving DecidableEq, Repr

/-- `start_python_bridge_direct` from `main.rs`: returns the new state, the
`Result<String, String>`, and the events emitted to the frontend.  Mirrors the
Rust control flow: already-running guard, resolver, spawn, 500 ms grace probe
via `try_wait` (where `Ok(Some(status))` aborts with the exited-immediately
error while both `Ok(None)` and `Err(_)` fall through), then store the handle,
set `is_running`, and emit `python-bridge-status = true`. -/
def start_python_bridge_direct (st : PythonBridgeState) (env : StartEnv) :
    PythonBridgeState × Except String String × List Event :=
  if st.is_running then
    (st, Except.error "Python bridge is already running", [])
  else
    match get_python_command env.debugMode env.platform env.appDataDir with
    | Except.error e => (st, Except.error e, [])
    | Except.ok _ =>
      match env.spawnResult with
      | SpawnResult.err e =>
          (st, Except.error ("Failed to start Python bridge: " ++ e), [])
      | SpawnResult.ok child =>
        match env.tryWaitResult with
        | TryWaitResult.exited status =>
            (st, Except.error ("Python bridge exited immediately with status: " ++ toString status), [])
        | TryWaitResult.stillRunning =>
            ({ process := some child, is_running := true },
             Except.ok "Python bridge started successfully",
             [Event.bridgeStatus true])
        | TryWaitResult.err _ =>
            ({ process := some child, is_running := true },
             Except.ok "Python bridge started successfully",
             [Event.bridgeStatus true])

/-- `stop_python_bridge` from `main.rs`: not-running guard, then
`state.process.take()`; on `Some`, kill — on success clear the flag and emit
`python-bridge-status = false`, on failure put the handle back; on `None`,
clear the flag and report that the bridge was not running. -/
def stop_python_bridge (st : PythonBridgeState) (kill : KillResult) :
    PythonBridgeState × Except String String × List Event :=
  if !st.is_running then
    (st, Except.error "Python bridge is not running", [])
  else
    match st.process with
    | some p =>
      match kill with
      | KillResult.ok =>
          ({ process := none, is_running := false },
           Except.ok "Python bridge stopped successfully",
           [Event.bridgeStatus false])
      | KillResult.err e =>
          ({ process := some p, is_running := st.is_running },
           Except.error ("Failed to stop Python bridge: " ++ e), [])
    | none =>
        ({ process := none, is_running := false },
         Except.ok "Python bridge was not running", [])

/-- `is_python_bridge_running` from `main.rs`: reads the `is_running` flag. -/
def is_python_bridge_running (st : PythonBridgeState) : Bool :=
  st.is_running

/-- The window events distinguished by the `on_window_event` handler. -/
inductive WindowEventKind where
  | closeRequested
  | otherEvent
deriving DecidableEq, Repr

/-- The observable effects of the window-event handler: whether
`api.prevent_close()` was called and whether `window.hide()` was called. -/
structure WindowEffects where
  preventedClose : Bool
  hid : Bool
deriving DecidableEq, Repr

/-- The `on_window_event` closure from `main`: on `CloseRequested` it calls
`api.prevent_close()` and `window.hide()`; on any other event it does nothing.
The closure captures no supervisor state, so the bridge state is passed
through unchanged. -/
def on_window_event (st : PythonBridgeState) (ev : WindowEventKind) :
    PythonBridgeState × WindowEffects :=
  match ev with
  | WindowEventKind.closeRequested =>
      (st, { preventedClose := true, hid := true })
  | WindowEventKind.otherEvent =>
      (st, { preventedClose := false, hid := false })

/-- The states reachable from `PythonBridgeState::new()` by any sequence of
`start_python_bridge_direct` and `stop_python_bridge` calls, with arbitrary
external outcomes. -/
inductive Reachable : PythonBridgeState → Prop where
  | init : Reachable PythonBridgeState.new
  | startStep (st : PythonBridgeState) (env : StartEnv) :
      Reachable st → Reachable (start_python_bridge_direct st env).1
  | stopStep (st : PythonBridgeState) (kill : KillResult) :
      Reachable st → Reachable (stop_python_bridge st kill).1

/-- One start() step preserves the running-iff-handle invariant. -/
theorem start_step_preserves_invariant (st : PythonBridgeState) (env : StartEnv)
    (h : st.is_running = true ↔ st.process.isSome = true) :
    ((start_python_bridge_direct st env).1.is_running = true ↔
      (start_python_bridge_direct st env).1.process.isSome = true) := by
  unfold start_python_bridge_direct
  repeat' split
  all_goals simp_all

/-- One stop() step preserves the running-iff-handle invariant. -/
theorem stop_step_preserves_invariant (st : PythonBridgeState) (kill : KillResult)
    (h : st.is_running = true ↔ st.process.isSome = true) :
    ((stop_python_bridge st kill).1.is_running = true ↔
      (stop_python_bridge st kill).1.process.isSome = true) := by
  unfold stop_python_bridge
  repeat' split
  all_goals simp_all

/-- C1: for every sequence of start()/stop() operations from the initial
state (no process handle, not running), with arbitrary external outcomes,
`is_running = true` iff a process handle is held: the two fields are never
left inconsistent. -/
theorem bridge_running_iff_handle (st : PythonBridgeState) (h : Reachable st) :
    st.is_running = true ↔ st.process.isSome = true := by
  induction h with
  | init => simp [PythonBridgeState.new]
  | startStep st env _ ih => exact start_step_preserves_invariant st env ih
  | stopStep st kill _ ih => exact stop_step_preserves_invariant st kill ih

/-- C1 witness: the invariant holds at the initial state. -/
theorem bridge_running_iff_handle_witness :
    (PythonBridgeState.new.is_running = true ↔ PythonBridgeState.new.process.isSome = true) :=
  bridge_running_iff_handle PythonBridgeState.new Reachable.init

/-- C2: from any state with `is_running = true`, start() fails with the
already-running error (the code's rendering of `AlreadyRunning`), leaves the
state unchanged, emits nothing, and spawns no second worker (whatever the
external outcomes in `env`). -/
theorem start_already_running (st : PythonBridgeState) (env : StartEnv)
    (h : st.is_running = true) :
    start_python_bridge_direct st env =
      (st, Except.error "Python bridge is already running", []) := by
  unfold start_python_bridge_direct
  rw [if_pos]
  exact h

/-- C2 witness: concrete already-running state. -/
theorem start_already_running_witness :
    start_python_bridge_direct
        { process := some { id := 7 }, is_running := true }
        { debugMode := true, platform := Platform.linux, appDataDir := none,
          spawnResult := SpawnResult.ok { id := 8 },
          tryWaitResult := TryWaitResult.stillRunning } =
      ({ process := some { id := 7 }, is_running := true },
       Except.error "Python bridge is already running", []) :=
  start_already_running
    { process := some { id := 7 }, is_running := true }
    { debugMode := true, platform := Platform.linux, appDataDir := none,
      spawnResult := SpawnResult.ok { id := 8 },
      tryWaitResult := TryWaitResult.stillRunning }
    rfl

/-- C3: from any state with `is_running = false`, stop() fails with the
not-running error (the code's rendering of `NotRunning`), leaves the state
unchanged and emits nothing. -/
theorem stop_not_running (st : PythonBridgeState) (kill : KillResult)
    (h : st.is_running = false) :
    stop_python_bridge st kill =
      (st, Except.error "Python bridge is not running", []) := by
  unfold stop_python_bridge
  rw [if_pos]
  simp [h]

/-- C3 witness: concrete not-running state. -/
theorem stop_not_running_witness :
    stop_python_bridge { process := none, is_running := false } KillResult.ok =
      ({ process := none, is_running := false },
       Except.error "Python bridge is not running", []) :=
  stop_not_running { process := none, is_running := false } KillResult.ok rfl

/-- C4: if stop() is called while running with a handle held and the kill
fails, it returns the kill-failure error (the code's rendering of
`KillFailed`), the handle is restored, `is_running` stays `true`, no event is
emitted, and a subsequent status() still reports `true`. -/
theorem stop_kill_failed_rolls_back (st : PythonBridgeState) (p : Child) (e : String)
    (hrun : st.is_running = true) (hp : st.process = some p) :
    stop_python_bridge st (KillResult.err e) =
      (st, Except.error ("Failed to stop Python bridge: " ++ e), []) ∧
    is_python_bridge_running (stop_python_bridge st (KillResult.err e)).1 = true := by
  have hst : stop_python_bridge st (KillResult.err e) =
      (st, Except.error ("Failed to stop Python bridge: " ++ e), []) := by
    unfold stop_python_bridge
    rw [if_neg]
    · simp only [hp]
      rw [← hp]
    · simp [hrun]
  exact ⟨hst, by rw [hst]; exact hrun⟩

/-- C4 witness: concrete running state with a handle, failing kill. -/
theorem stop_kill_failed_rolls_back_witness :
    stop_python_bridge { process := some { id := 3 }, is_running := true }
        (KillResult.err "EPERM") =
      ({ process := some { id := 3 }, is_running := true },
       Except.error ("Failed to stop Python bridge: " ++ "EPERM"), []) ∧
    is_python_bridge_running
        (stop_python_bridge { process := some { id := 3 }, is_running := true }
          (KillResult.err "EPERM")).1 = true :=
  stop_kill_failed_rolls_back
    { process := some { id := 3 }, is_running := true } { id := 3 } "EPERM" rfl rfl

/-- C5: from a non-running state, if resolution and spawn succeed but the
grace probe finds the process already exited (`try_wait` returns
`Ok(Some(status))`), start() fails with the exited-immediately error carrying
the exit status, the handle is not stored, `is_running` stays `false` (the
state is unchanged), nothing is emitted, and a subsequent status() reports
`false`. -/
theorem start_exited_immediately (st : PythonBridgeState) (env : StartEnv)
    (status : Int) (r : String × Option (List String))
    (hrun : st.is_running = false)
    (hres : get_python_command env.debugMode env.platform env.appDataDir = Except.ok r)
    (hspawn : ∃ c, env.spawnResult = SpawnResult.ok c)
    (hwait : env.tryWaitResult = TryWaitResult.exited status) :
    start_python_bridge_direct st env =
      (st, Except.error ("Python bridge exited immediately with status: " ++ toString status), []) ∧
    is_python_bridge_running (start_python_bridge_direct st env).1 = false := by
  obtain ⟨c, hc⟩ := hspawn
  have hst : start_python_bridge_direct st env =
      (st, Except.error ("Python bridge exited immediately with status: " ++ toString status), []) := by
    unfold start_python_bridge_direct
    rw [if_neg]
    · simp only [hres, hc, hwait]
    · simp [hrun]
  exact ⟨hst, by rw [hst]; exact hrun⟩

/-- C5 witness: idle state, debug-mode linux resolution, spawned pid 9,
probe reports exit status 1. -/
theorem start_exited_immediately_witness :
    start_python_bridge_direct { process := none, is_running := false }
        { debugMode := true, platform := Platform.linux, appDataDir := none,
          spawnResult := SpawnResult.ok { id := 9 },
          tryWaitResult := TryWaitResult.exited 1 } =
      ({ process := none, is_running := false },
       Except.error ("Python bridge exited immediately with status: " ++ toString (1 : Int)), []) ∧
    is_python_bridge_running
        (start_python_bridge_direct { process := none, is_running := false }
          { debugMode := true, platform := Platform.linux, appDataDir := none,
            spawnResult := SpawnResult.ok { id := 9 },
            tryWaitResult := TryWaitResult.exited 1 }).1 = false :=
  start_exited_immediately { process := none, is_running := false }
    { debugMode := true, platform := Platform.linux, appDataDir := none,
      spawnResult := SpawnResult.ok { id := 9 },
      tryWaitResult := TryWaitResult.exited 1 }
    1 ("python3", some ["-m", "aya.tauri_bridge"]) rfl rfl ⟨{ id := 9 }, rfl⟩ rfl

/-- C9: from a non-running state, if resolution and spawn succeed and the
grace probe itself errors (`try_wait` returns `Err(e)`), start() does not
fail: it stores the handle, sets `is_running = true`, emits the started
notification, and returns the success message, exactly as when the probe
confirms liveness. -/
theorem start_trywait_error_still_succeeds (st : PythonBridgeState) (env : StartEnv)
    (c : Child) (e : String) (r : String × Option (List String))
    (hrun : st.is_running = false)
    (hres : get_python_command env.debugMode env.platform env.appDataDir = Except.ok r)
    (hspawn : env.spawnResult = SpawnResult.ok c)
    (hwait : env.tryWaitResult = TryWaitResult.err e) :
    start_python_bridge_direct st env =
      ({ process := some c, is_running := true },
       Except.ok "Python bridge started successfully",
       [Event.bridgeStatus true]) := by
  unfold start_python_bridge_direct
  rw [if_neg]
  · simp only [hres, hspawn, hwait]
  · simp [hrun]

/-- C9 witness: idle state, debug-mode linux resolution, spawned pid 4,
probe errors. -/
theorem start_trywait_error_still_succeeds_witness :
    start_python_bridge_direct { process := none, is_running := false }
        { debugMode := true, platform := Platform.linux, appDataDir := none,
          spawnResult := SpawnResult.ok { id := 4 },
          tryWaitResult := TryWaitResult.err "EAGAIN" } =
      ({ process := some { id := 4 }, is_running := true },
       Except.ok "Python bridge started successfully",
       [Event.bridgeStatus true]) :=
  start_trywait_error_still_succeeds { process := none, is_running := false }
    { debugMode := true, platform := Platform.linux, appDataDir := none,
      spawnResult := SpawnResult.ok { id := 4 },
      tryWaitResult := TryWaitResult.err "EAGAIN" }
    { id := 4 } "EAGAIN" ("python3", some ["-m", "aya.tauri_bridge"]) rfl rfl rfl rfl

/-- C10: from a state with `is_running = true` but no handle held, stop()
does not fail with the not-running error: it sets `is_running = false`,
returns the success message that the bridge was not running, and emits no
stopped notification (whatever the kill outcome would have been). -/
theorem stop_running_without_handle (st : PythonBridgeState) (kill : KillResult)
    (hrun : st.is_running = true) (hp : st.process = none) :
    stop_python_bridge st kill =
      ({ process := none, is_running := false },
       Except.ok "Python bridge was not running", []) := by
  unfold stop_python_bridge
  rw [if_neg]
  · simp only [hp]
  · simp [hrun]

/-- C10 witness: running flag set with no handle. -/
theorem stop_running_without_handle_witness :
    stop_python_bridge { process := none, is_running := true } KillResult.ok =
      ({ process := none, is_running := false },
       Except.ok "Python bridge was not running", []) :=
  stop_running_without_handle { process := none, is_running := true }
    KillResult.ok rfl rfl

/-- C8: on a close request, the handler calls `prevent_close` and `hide`,
and passes the supervisor state through untouched, so status() afterwards
reports exactly what it reported before (in particular, still `true` when the
worker was running). -/
theorem close_requested_hides_keeps_state (st : PythonBridgeState) :
    (on_window_event st WindowEventKind.closeRequested).2 =
      { preventedClose := true, hid := true } ∧
    (on_window_event st WindowEventKind.closeRequested).1 = st ∧
    is_python_bridge_running (on_window_event st WindowEventKind.closeRequested).1 =
      is_python_bridge_running st :=
  ⟨rfl, rfl, rfl⟩

/-- C6: in debug mode on any non-Windows platform the resolver returns
`("python3", ["-m", "aya.tauri_bridge"])` regardless of the app data
directory; in production mode on macOS with the app data directory available
it returns the app data directory joined with `Resources/aya_bridge` — a path
ending in `Resources/aya_bridge` — and no arguments. -/
theorem resolver_debug_nonwindows_and_macos_production (p : Platform)
    (hp : p ≠ Platform.windows) (dir : Option String) (appDir : String) :
    get_python_command true p dir =
      Except.ok ("python3", some ["-m", "aya.tauri_bridge"]) ∧
    get_python_command false Platform.macos (some appDir) =
      Except.ok (pathJoin "/" (pathJoin "/" appDir "Resources") "aya_bridge", none) ∧
    ∃ s, pathJoin "/" (pathJoin "/" appDir "Resources") "aya_bridge" =
      s ++ "Resources/aya_bridge" := by
  refine ⟨?_, rfl, appDir ++ "/", ?_⟩
  · cases p with
    | windows => exact absurd rfl hp
    | macos => rfl
    | linux => rfl
    | other => rfl
  · have h : ("Resources" ++ ("/" ++ "aya_bridge") : String) = "Resources/aya_bridge" := rfl
    simp only [pathJoin, String.append_assoc, h]

/-- C6 witness: macOS, app data directory "appdir". -/
theorem resolver_debug_nonwindows_and_macos_production_witness :
    get_python_command true Platform.macos none =
      Except.ok ("python3", some ["-m", "aya.tauri_bridge"]) ∧
    get_python_command false Platform.macos (some "appdir") =
      Except.ok (pathJoin "/" (pathJoin "/" "appdir" "Resources") "aya_bridge", none) ∧
    ∃ s, pathJoin "/" (pathJoin "/" "appdir" "Resources") "aya_bridge" =
      s ++ "Resources/aya_bridge" :=
  resolver_debug_nonwindows_and_macos_production Platform.macos (by decide) none "appdir"

/-- C7 counterexample: in debug mode on an unrecognized platform the resolver
does not fail at all — it resolves to the system python3 — so it is not the
case that the resolver fails with the unsupported-platform error whenever the
platform is none of the three recognized families. -/
theorem resolver_unsupported_platform_counterexample :
    get_python_command true Platform.other none =
      Except.ok ("python3", some ["-m", "aya.tauri_bridge"]) ∧
    get_python_command true Platform.other none ≠
      Except.error "Unsupported platform" := by
  refine ⟨rfl, ?_⟩
  intro h
  exact Except.noConfusion h

/-- C7 amended: in production mode with the app data directory available, an
unrecognized platform fails with the unsupported-platform error; and in
production mode, whenever the app data directory cannot be determined (on any
platform, since the directory is looked up before the platform split), the
resolver fails with the app-directory error.  In debug mode an unrecognized
platform resolves like any non-Windows platform. -/
theorem resolver_failure_taxonomy (p q : Platform) (appDir : String)
    (hw : p ≠ Platform.windows) (hm : p ≠ Platform.macos) (hl : p ≠ Platform.linux) :
    get_python_command false p (some appDir) = Except.error "Unsupported platform" ∧
    get_python_command false q none = Except.error "Failed to get app directory" := by
  constructor
  · cases p with
    | windows => exact absurd rfl hw
    | macos => exact absurd rfl hm
    | linux => exact absurd rfl hl
    | other => rfl
  · cases q <;> rfl

/-- C7 amended witness: unrecognized platform, app data directory "appdir". -/
theorem resolver_failure_taxonomy_witness :
    get_python_command false Platform.other (some "appdir") =
      Except.error "Unsupported platform" ∧
    get_python_command false Platform.macos none =
      Except.error "Failed to get app directory" :=
  resolver_failure_taxonomy Platform.other Platform.macos "appdir"
    (by decide) (by decide) (by decide)
